import Mathlib

/-!
Verification of the multi-agent orchestrator core against its source.

JavaScript strings are modelled as lists of Unicode code points
(`List Nat`); `jsStr` converts a Lean string literal into that model for
concrete inputs.  All string-rewriting functions below are transcribed
from `src/typescript/src/agents/agent.ts`.
-/

namespace MAO

/-- Convert a Lean string literal to the code-point model of a JS string. -/
def jsStr (s : String) : List Nat :=
  s.toList.map Char.toNat

/-- Code points matched by the regex class `[A-Z]`. -/
def isAsciiUpper (n : Nat) : Bool :=
  65 ≤ n && n ≤ 90

/-- Code points matched by the regex class `[a-z]`. -/
def isAsciiLower (n : Nat) : Bool :=
  97 ≤ n && n ≤ 122

/-- Code points matched by the regex class `[0-9]`. -/
def isDigitCode (n : Nat) : Bool :=
  48 ≤ n && n ≤ 57

/-- Code points matched by the JavaScript regex class `\s`:
tab, line feed, vertical tab, form feed, carriage return, space,
no-break space, ogham space mark, the en-quad..hair-space range,
line separator, paragraph separator, narrow no-break space,
medium mathematical space, ideographic space and the BOM. -/
def isJsWhitespace (n : Nat) : Bool :=
  n = 9 || n = 10 || n = 11 || n = 12 || n = 13 || n = 32 ||
  n = 160 || n = 5760 || (8192 ≤ n && n ≤ 8202) ||
  n = 8232 || n = 8233 || n = 8239 || n = 8287 || n = 12288 || n = 65279

/-- Code points kept by `name.replace(/[^a-zA-Z\s-]/g, "")` in
`generateKeyFromName` (agent.ts line 118): ASCII letters, JS whitespace
and the hyphen (code 45).  Digits are NOT in this set. -/
def keepInKey (n : Nat) : Bool :=
  isAsciiUpper n || isAsciiLower n || isJsWhitespace n || n = 45

/-- One left-to-right pass implementing `.replace(/\s+/g, "-")`
(agent.ts line 119): the first character of each maximal whitespace run
becomes a hyphen, the rest of the run is dropped.  The flag records
whether the previous character was whitespace. -/
def collapseWsAux : Bool → List Nat → List Nat
  | _, [] => []
  | prevWs, c :: cs =>
    if isJsWhitespace c then
      (if prevWs then collapseWsAux true cs else 45 :: collapseWsAux true cs)
    else
      c :: collapseWsAux false cs

/-- The `.replace(/\s+/g, "-")` step of `generateKeyFromName`. -/
def collapseWs (s : List Nat) : List Nat :=
  collapseWsAux false s

/-- Per-code-point `.toLowerCase()` (agent.ts line 120).  Only the ASCII
range matters here because the two preceding replaces leave nothing but
ASCII letters and hyphens in the string. -/
def toLowerCode (n : Nat) : Nat :=
  if isAsciiUpper n then n + 32 else n

/-- `Agent.generateKeyFromName` (agent.ts lines 115-122): remove every
code point outside `[a-zA-Z\s-]`, collapse whitespace runs to single
hyphens, lowercase. -/
def generateKeyFromName (name : List Nat) : List Nat :=
  (collapseWs (name.filter keepInKey)).map toLowerCode

/-- The identifier derivation as the spec (§3 AgentDescriptor) and the
doc comment of `generateKeyFromName` itself describe it: strip
non-alphanumeric/non-hyphen characters (whitespace retained at this
step), collapse whitespace to hyphens, lowercase.  It differs from
`generateKeyFromName` only in keeping digits. -/
def specKeyFromName (name : List Nat) : List Nat :=
  (collapseWs (name.filter
    (fun n => keepInKey n || isDigitCode n))).map toLowerCode

example : generateKeyFromName (jsStr "Tech Agent") = jsStr "tech-agent" := by decide
example : generateKeyFromName (jsStr "Agent 1") = jsStr "agent-" := by decide
example : specKeyFromName (jsStr "Agent 1") = jsStr "agent-1" := by decide
example : generateKeyFromName (jsStr "1") = jsStr "" := by decide

/-! ## The Agent data model (agent.ts lines 39-103) -/

/-- The five logging operations of the logger object built in the Agent
constructor (agent.ts line 100): info, warn, error, debug, log. -/
inductive LogLevel where
  | info
  | warn
  | error
  | debug
  | log
deriving DecidableEq

/-- An observable logging event: a level together with the message. -/
structure LogEvent where
  level : LogLevel
  message : List Nat
deriving DecidableEq

/-- A logger value as the Agent constructor can resolve it: the global
`console`, the inline object literal whose five methods are all
`() => {}` (called `noopLogger` here), or an injected custom logger.
A logger is observed through the events it emits. -/
inductive Logger where
  | console
  | noopLogger
  | custom (emit : LogLevel → List Nat → List LogEvent)

/-- The events a logging call produces: `console` logs the message, the
no-op object literal does nothing, a custom logger does whatever it was
built to do. -/
def Logger.emit : Logger → LogLevel → List Nat → List LogEvent
  | .console, lv, m => [⟨lv, m⟩]
  | .noopLogger, _, _ => []
  | .custom f, lv, m => f lv m

/-- A logger is a no-op implementation when every logging operation
emits nothing. -/
def IsNoOpLogger (l : Logger) : Prop :=
  ∀ lv m, l.emit lv m = []

/-- `AgentOptions` (agent.ts lines 38-63).  Optional TypeScript fields
become `Option`; `logger?: any | Console` becomes an optional `Logger`. -/
structure AgentOptions where
  name : List Nat
  description : List Nat
  modelId : Option (List Nat) := none
  region : Option (List Nat) := none
  saveChat : Option Bool := none
  logger : Option Logger := none
  LOG_AGENT_DEBUG_TRACE : Option Bool := none

/-- The state of a constructed `Agent` (agent.ts lines 68-103): the
fields the abstract class stores. -/
structure Agent where
  name : List Nat
  id : List Nat
  description : List Nat
  saveChat : Bool
  logger : Logger
  LOG_AGENT_DEBUG_TRACE : Bool

/-- The `Agent` constructor (agent.ts lines 93-102):
`this.id = this.generateKeyFromName(options.name)`,
`this.saveChat = options.saveChat ?? true`,
`this.LOG_AGENT_DEBUG_TRACE = options.LOG_AGENT_DEBUG_TRACE ?? false`,
`this.logger = options.logger ?? (this.LOG_AGENT_DEBUG_TRACE ? console
: { info: () => {}, ... })`. -/
def makeAgent (options : AgentOptions) : Agent :=
  let trace := options.LOG_AGENT_DEBUG_TRACE.getD false
  { name := options.name
    id := generateKeyFromName options.name
    description := options.description
    saveChat := options.saveChat.getD true
    LOG_AGENT_DEBUG_TRACE := trace
    logger := options.logger.getD
      (if trace then Logger.console else Logger.noopLogger) }

example :
    (makeAgent { name := jsStr "Tech Agent", description := jsStr "t" }).id
      = jsStr "tech-agent" := by decide
example :
    (makeAgent { name := jsStr "Tech Agent", description := jsStr "t" }).saveChat
      = true := by decide

/-! ## Character-level facts about the derived key -/

lemma mem_collapseWsAux (l : List Nat) :
    ∀ (flag : Bool) (n : Nat), n ∈ collapseWsAux flag l →
      n = 45 ∨ (n ∈ l ∧ isJsWhitespace n = false) := by
  induction l with
  | nil =>
    intro flag n h
    simp [collapseWsAux] at h
  | cons c cs ih =>
    intro flag n h
    simp only [collapseWsAux] at h
    by_cases hc : isJsWhitespace c = true
    · rw [if_pos hc] at h
      cases flag with
      | true =>
        rcases ih true n h with h45 | ⟨hmem, hws⟩
        · exact Or.inl h45
        · exact Or.inr ⟨List.mem_cons_of_mem _ hmem, hws⟩
      | false =>
        rcases List.mem_cons.mp h with rfl | h'
        · exact Or.inl rfl
        · rcases ih true n h' with h45 | ⟨hmem, hws⟩
          · exact Or.inl h45
          · exact Or.inr ⟨List.mem_cons_of_mem _ hmem, hws⟩
    · rw [if_neg hc] at h
      rcases List.mem_cons.mp h with rfl | h'
      · exact Or.inr ⟨List.mem_cons_self _ _, Bool.eq_false_iff.mpr hc⟩
      · rcases ih false n h' with h45 | ⟨hmem, hws⟩
        · exact Or.inl h45
        · exact Or.inr ⟨List.mem_cons_of_mem _ hmem, hws⟩

/-- Every code point of a derived key is a lowercase ASCII letter or a
hyphen. -/
lemma mem_generateKeyFromName (name : List Nat) (n : Nat)
    (h : n ∈ generateKeyFromName name) : isAsciiLower n = true ∨ n = 45 := by
  unfold generateKeyFromName collapseWs at h
  rcases List.mem_map.mp h with ⟨d, hd, rfl⟩
  rcases mem_collapseWsAux _ _ _ hd with h45 | ⟨hmem, hws⟩
  · subst h45
    exact Or.inr (by decide)
  · have hk : keepInKey d = true := (List.mem_filter.mp hmem).2
    simp only [keepInKey, Bool.or_eq_true] at hk
    rcases hk with ((hu | hl) | hw) | h45
    · left
      simp only [toLowerCode, hu, if_pos]
      simp only [isAsciiUpper, Bool.and_eq_true, decide_eq_true_eq] at hu
      simp only [isAsciiLower, Bool.and_eq_true, decide_eq_true_eq]
      omega
    · left
      have hu : isAsciiUpper d = false := by
        refine Bool.eq_false_iff.mpr fun hw' => ?_
        simp only [isAsciiLower, Bool.and_eq_true, decide_eq_true_eq] at hl
        simp only [isAsciiUpper, Bool.and_eq_true, decide_eq_true_eq] at hw'
        omega
      rw [toLowerCode, hu]
      simpa using hl
    · rw [hw] at hws
      cases hws
    · rw [decide_eq_true_eq] at h45
      subst h45
      exact Or.inr (by decide)

lemma keepInKey_of_key {n : Nat} (h : isAsciiLower n = true ∨ n = 45) :
    keepInKey n = true := by
  rcases h with h | h
  · simp [keepInKey, h]
  · simp [keepInKey, h]

lemma not_ws_of_key {n : Nat} (h : isAsciiLower n = true ∨ n = 45) :
    isJsWhitespace n = false := by
  have hn : (97 ≤ n ∧ n ≤ 122) ∨ n = 45 := by
    rcases h with h | h
    · simp only [isAsciiLower, Bool.and_eq_true, decide_eq_true_eq] at h
      exact Or.inl h
    · exact Or.inr h
  refine Bool.eq_false_iff.mpr fun hw => ?_
  simp only [isJsWhitespace, Bool.or_eq_true, Bool.and_eq_true,
    decide_eq_true_eq] at hw
  omega

lemma toLowerCode_of_key {n : Nat} (h : isAsciiLower n = true ∨ n = 45) :
    toLowerCode n = n := by
  have hu : isAsciiUpper n = false := by
    refine Bool.eq_false_iff.mpr fun hw => ?_
    simp only [isAsciiUpper, Bool.and_eq_true, decide_eq_true_eq] at hw
    rcases h with h | h
    · simp only [isAsciiLower, Bool.and_eq_true, decide_eq_true_eq] at h
      omega
    · omega
  rw [toLowerCode, hu]
  simp

lemma collapseWsAux_of_no_ws (l : List Nat)
    (h : ∀ n ∈ l, isJsWhitespace n = false) :
    ∀ flag, collapseWsAux flag l = l := by
  induction l with
  | nil => intro flag; rfl
  | cons c cs ih =>
    intro flag
    have hc : isJsWhitespace c = false := h c (List.mem_cons_self _ _)
    simp only [collapseWsAux, hc]
    rw [if_neg (by simp [hc])]
    rw [ih (fun n hn => h n (List.mem_cons_of_mem _ hn)) false]

lemma filter_keepInKey_id (l : List Nat)
    (h : ∀ n ∈ l, keepInKey n = true) : l.filter keepInKey = l := by
  induction l with
  | nil => rfl
  | cons c cs ih =>
    rw [List.filter_cons, if_pos (h c (List.mem_cons_self _ _))]
    rw [ih (fun n hn => h n (List.mem_cons_of_mem _ hn))]

lemma map_toLowerCode_id (l : List Nat)
    (h : ∀ n ∈ l, toLowerCode n = n) : l.map toLowerCode = l := by
  induction l with
  | nil => rfl
  | cons c cs ih =>
    rw [List.map_cons, h c (List.mem_cons_self _ _)]
    rw [ih (fun n hn => h n (List.mem_cons_of_mem _ hn))]

/-- Key derivation is idempotent: re-deriving from a derived key changes
nothing. -/
lemma generateKeyFromName_idem (name : List Nat) :
    generateKeyFromName (generateKeyFromName name) = generateKeyFromName name := by
  have hch : ∀ n ∈ generateKeyFromName name, isAsciiLower n = true ∨ n = 45 :=
    fun n h => mem_generateKeyFromName name n h
  have h1 : (generateKeyFromName name).filter keepInKey = generateKeyFromName name :=
    filter_keepInKey_id _ (fun n h => keepInKey_of_key (hch n h))
  have h2 : collapseWs (generateKeyFromName name) = generateKeyFromName name :=
    collapseWsAux_of_no_ws _ (fun n h => not_ws_of_key (hch n h)) false
  have h3 : (generateKeyFromName name).map toLowerCode = generateKeyFromName name :=
    map_toLowerCode_id _ (fun n h => toLowerCode_of_key (hch n h))
  calc generateKeyFromName (generateKeyFromName name)
      = (collapseWs ((generateKeyFromName name).filter keepInKey)).map toLowerCode := rfl
    _ = (collapseWs (generateKeyFromName name)).map toLowerCode := by rw [h1]
    _ = (generateKeyFromName name).map toLowerCode := by rw [h2]
    _ = generateKeyFromName name := h3

/-! ## TypeScript value and type embedding

`JSValue` is the tagged union of runtime values an `any`-typed slot can
hold (string, number, boolean, nested string-keyed object); `TSType` is
syntax for the TypeScript type annotations that appear in agent.ts, and
`JSValue.hasType` is the evident membership relation.  Numbers carry a
rational payload; floating-point rounding plays no role in any claim. -/

inductive JSValue where
  | str (s : List Nat)
  | num (q : Rat)
  | boolean (b : Bool)
  | obj (fields : List (List Nat × JSValue))

/-- TypeScript type annotations used by the declarations under scrutiny:
`string`, `number`, `boolean`, `any`, and `Record<string, v>`. -/
inductive TSType where
  | stringT
  | numberT
  | booleanT
  | anyT
  | record (value : TSType)
deriving DecidableEq

/-- Whether a runtime value inhabits a non-`Record` TypeScript type
annotation.  In the declarations under scrutiny `Record` only ever
appears at the outermost level (`Record<string, any>` and
`Record<string, string>`), so only the value-type annotations that occur
there — `string`, `number`, `boolean`, `any` — are interpreted; the
outer `Record` level is handled by `recordEntryHasType`. -/
def JSValue.hasType : JSValue → TSType → Bool
  | _, .anyT => true
  | .str _, .stringT => true
  | .num _, .numberT => true
  | .boolean _, .booleanT => true
  | _, _ => false

/-- Whether a one-entry string-keyed mapping is accepted at a
`Record<string, _>` annotation. -/
def recordEntryHasType (v : JSValue) (t : TSType) : Bool :=
  match t with
  | .record valueTy => v.hasType valueTy
  | _ => false

/-- The declared TypeScript type of `AgentProcessingResult.additionalParams`
(agent.ts line 23): `Record<string, any>`. -/
def additionalParamsTypeOnResult : TSType :=
  .record .anyT

/-- The declared TypeScript type of the optional `additionalParams`
parameter of `Agent.processRequest` (agent.ts line 138):
`Record<string, string>`. -/
def additionalParamsTypeOnProcessRequest : TSType :=
  .record .stringT

/-! ## The analyzePrompt tool schema

Embedded from the tool specification in
`src/docs/src/content/docs/classifiers/built-in/anthropic-classifier.mdx`
(lines 158-172). -/

/-- A JSON-schema object schema: named properties with their types, and
the list of required property names. -/
structure ToolInputSchema where
  properties : List (List Nat × TSType)
  required : List (List Nat)

/-- A tool specification: name, description and input schema. -/
structure ToolSpec where
  name : List Nat
  description : List Nat
  input_schema : ToolInputSchema

/-- The `analyzePrompt` tool specification sent to the model provider. -/
def analyzePromptTool : ToolSpec :=
  { name := jsStr "analyzePrompt"
    description := jsStr "Analyze the user input and provide structured output"
    input_schema :=
      { properties :=
          [ (jsStr "userinput", .stringT)
          , (jsStr "selected_agent", .stringT)
          , (jsStr "confidence", .numberT) ]
        required :=
          [ jsStr "userinput", jsStr "selected_agent", jsStr "confidence" ] } }

/-- Field lookup in a JSON object, modelled as an association list. -/
def lookupField (o : List (List Nat × JSValue)) (k : List Nat) : Option JSValue :=
  match o.find? (fun kv => kv.1 = k) with
  | some kv => some kv.2
  | none => none

/-- JSON-schema conformance of an object against an object schema: every
required property is present, and every present property named in
`properties` has the declared type. -/
def conformsTo (o : List (List Nat × JSValue)) (s : ToolInputSchema) : Bool :=
  (s.required.all fun k => (lookupField o k).isSome) &&
  (s.properties.all fun kt =>
    match lookupField o kt.1 with
    | none => true
    | some v => v.hasType kt.2)

/-! ## AgentResponse and the Router normalization step -/

/-- Modelled from the spec: `AccumulatorTransform` / OutputAccumulator
(`src/utils/helpers` is not under src/): a pass-through sink that
buffers the chunks it forwards and knows whether the stream has
completed (§2.2, §4.4). -/
structure AccumulatorTransform where
  chunks : List (List Nat)
  completed : Bool

/-- `AgentProcessingResult` (agent.ts lines 5-24); `additionalParams`
is a string-keyed mapping to `any`-typed values. -/
structure AgentProcessingResult where
  userInput : List Nat
  agentId : List Nat
  agentName : List Nat
  userId : List Nat
  sessionId : List Nat
  additionalParams : List (List Nat × JSValue)

/-- The `output` slot of `AgentResponse` (agent.ts line 34):
`AccumulatorTransform | string`. -/
inductive AgentOutput where
  | text (s : List Nat)
  | stream (t : AccumulatorTransform)

/-- Whether an output value is the stream form. -/
def AgentOutput.isStream : AgentOutput → Bool
  | .text _ => false
  | .stream _ => true

/-- `AgentResponse` (agent.ts lines 32-36). -/
structure AgentResponse where
  metadata : AgentProcessingResult
  output : AgentOutput
  streaming : Bool

/-- What an agent invocation can return (agent.ts line 139:
`ConversationMessage | AsyncIterable`): one complete message or a
sequence of text chunks. -/
inductive AgentReply where
  | message (content : List Nat)
  | chunkStream (chunks : List (List Nat))

/-- Modelled from the spec: the Router normalization step
(§4.3 INVOKED→NORMALIZED; the orchestrator source is not under src/):
a chunk-sequence reply is wrapped through the accumulator and tagged
`streaming := true`; a message reply becomes the plain text with
`streaming := false`. -/
def normalizeReply (meta : AgentProcessingResult) : AgentReply → AgentResponse
  | .message s => ⟨meta, .text s, false⟩
  | .chunkStream cs => ⟨meta, .stream ⟨cs, false⟩, true⟩

/-! ## The classifier continuity model

The classifier implementation is not under src/; only its documentation
(`anthropic-classifier.mdx`) is.  The prompt text below is transcribed
from the default system prompt shown there, and `classify` is modelled
from the spec (§4.1): render the system prompt with the two mandatory
slots filled, hand the rendered prompt plus the structured history and
the user turn to the external model client, and trust its structured
answer. -/

/-- Message roles of a `ConversationMessage`. -/
inductive Role where
  | user
  | assistant
deriving DecidableEq

/-- Modelled from the spec: `ConversationMessage` (§3; `src/types` is
not under src/): role, content, and for assistant messages an optional
attribution to the agent that produced it. -/
structure ConversationMessage where
  role : Role
  content : List Nat
  agentId : Option (List Nat) := none

/-- The attribution of the most recent assistant message in a history,
if any. -/
def lastAttributedAgent (h : List ConversationMessage) : Option (List Nat) :=
  match h.reverse.find? (fun m => m.role = Role.assistant) with
  | some m => m.agentId
  | none => none

/-- One rendered transcript line: assistant lines are prefixed with the
attributed agent identifier in brackets (mdx lines 128-151). -/
def renderMessage (m : ConversationMessage) : List Nat :=
  match m.role with
  | .user => jsStr "user: " ++ m.content
  | .assistant =>
    jsStr "assistant: " ++
      (match m.agentId with
       | some a => jsStr "[" ++ a ++ jsStr "] "
       | none => []) ++ m.content

/-- The rendered, agent-attributed conversation transcript that fills
the HISTORY slot. -/
def renderHistory (h : List ConversationMessage) : List Nat :=
  List.intercalate (jsStr "\n") (h.map renderMessage)

/-- The continuity instruction of the default system prompt
(mdx lines 77-80). -/
def continuityInstruction : List Nat :=
  jsStr "Important: The user\x27s input may be a follow-up response to a previous interaction.\nThe conversation history, including the name of the previously selected agent, is provided.\nIf the user\x27s input appears to be a continuation of the previous conversation\n(e.g., \"yes\", \"ok\", \"I want to know more\", \"1\"), select the same agent as before.\n"

/-- The opening paragraph of the default system prompt
(mdx lines 72-75). -/
def promptHeader : List Nat :=
  jsStr "You are AgentMatcher, an intelligent assistant designed to analyze user queries and match them with\nthe most suitable agent or department. Your task is to understand the user\x27s request,\nidentify key entities and intents, and determine which agent or department would be best equipped\nto handle the query.\n\n"

/-- The remainder of the default system prompt with the two mandatory
slots filled in: the agent descriptions and the rendered history
(mdx lines 82-116, classification guidelines abridged to the parts the
claims touch). -/
def promptTail (agentDescriptions historyText : List Nat) : List Nat :=
  jsStr "Analyze the user\x27s input and categorize it into one of the following agent types:\n<agents>\n" ++
  agentDescriptions ++
  jsStr "\n</agents>\nIf you are unable to select an agent put \"unknown\"\n\nFor short responses like \"yes\", \"ok\", \"I want to know more\", or numerical answers,\ntreat them as follow-ups and maintain the previous agent selection.\n\nHere is the conversation history that you need to take into account before answering:\n<history>\n" ++
  historyText ++
  jsStr "\n</history>\n\nSkip any preamble and provide only the response in the specified format.\n"

/-- The rendered default system prompt: header, continuity instruction,
then the slot-filled remainder. -/
def defaultSystemPrompt (agentDescriptions historyText : List Nat) : List Nat :=
  promptHeader ++ continuityInstruction ++ promptTail agentDescriptions historyText

/-- The structured classification result (`ClassifierResult`): the three
schema fields. -/
structure ClassifierResult where
  userinput : List Nat
  selected_agent : List Nat
  confidence : Rat

/-- An external model-calling client: system prompt text, structured
history and user turn in, structured classification out (§4.1 sends the
rendered prompt plus history to the client). -/
def ModelClient : Type :=
  List Nat → List ConversationMessage → List Nat → ClassifierResult

/-- A follow-up turn consisting only of an acknowledgement: one of the
acknowledgement phrases the prompt names, or a pure numeral (§4.1
continuity heuristic). -/
def isAcknowledgement (s : List Nat) : Bool :=
  [jsStr "yes", jsStr "ok", jsStr "I want to know more"].contains s ||
    (!s.isEmpty && s.all isDigitCode)

/-- A model client follows the continuity instruction when, whenever the
system prompt it is given contains that instruction, the turn is a pure
acknowledgement and the history has a last attributed agent, it selects
that same agent. -/
def FollowsContinuityInstruction (client : ModelClient) : Prop :=
  ∀ (prompt : List Nat) (history : List ConversationMessage) (input : List Nat),
    (∃ pre post, prompt = pre ++ continuityInstruction ++ post) →
    isAcknowledgement input = true →
    ∀ X, lastAttributedAgent history = some X →
    (client prompt history input).selected_agent = X

/-- Modelled from the spec: `classify` (§4.1; the classifier source is
not under src/): render the default system prompt with the agent
descriptions and the rendered history, call the model client, return
its structured result. -/
def classify (client : ModelClient) (agentDescriptions : List Nat)
    (history : List ConversationMessage) (input : List Nat) : ClassifierResult :=
  client (defaultSystemPrompt agentDescriptions (renderHistory history)) history input

/-- A deterministic scripted model client implementing the continuity
heuristic: echo the input and select the last attributed agent, falling
back to the sentinel. -/
def stubClient : ModelClient :=
  fun _prompt history input =>
    { userinput := input
      selected_agent := (lastAttributedAgent history).getD (jsStr "unknown")
      confidence := 1 }

lemma stubClient_follows : FollowsContinuityInstruction stubClient := by
  intro prompt history input _ _ X hX
  simp [stubClient, hX]

lemma hasType_stringT {v : JSValue} (h : v.hasType .stringT = true) :
    ∃ s, v = JSValue.str s := by
  cases v with
  | str s => exact ⟨s, rfl⟩
  | num q => simp [JSValue.hasType] at h
  | boolean b => simp [JSValue.hasType] at h
  | obj f => simp [JSValue.hasType] at h

lemma hasType_numberT {v : JSValue} (h : v.hasType .numberT = true) :
    ∃ q, v = JSValue.num q := by
  cases v with
  | str s => simp [JSValue.hasType] at h
  | num q => exact ⟨q, rfl⟩
  | boolean b => simp [JSValue.hasType] at h
  | obj f => simp [JSValue.hasType] at h

/-- A concrete response object of the shape the docs show as an example
classification. -/
def sampleClassification : List (List Nat × JSValue) :=
  [ (jsStr "userinput", JSValue.str (jsStr "I need to reset my password"))
  , (jsStr "selected_agent", JSValue.str (jsStr "tech-support-agent"))
  , (jsStr "confidence", JSValue.num 1) ]

/-- A concrete two-message history whose last assistant message is
attributed to tech-support-agent. -/
def sampleHistory : List ConversationMessage :=
  [ { role := .user, content := jsStr "The premium features are not working" }
  , { role := .assistant,
      content := jsStr "Let us troubleshoot the premium features.",
      agentId := some (jsStr "tech-support-agent") } ]

/-- Options with only the two required fields set. -/
def baseOptions : AgentOptions :=
  { name := jsStr "Tech Agent", description := jsStr "d" }

/-- Options that opt out of chat saving. -/
def optOutOptions : AgentOptions :=
  { baseOptions with saveChat := some false }

/-- Options that enable debug trace logging without injecting a logger. -/
def traceOptions : AgentOptions :=
  { baseOptions with LOG_AGENT_DEBUG_TRACE := some true }

/-! ## Claim theorems -/

/-- Claim C1 (code bug): the spec and the doc comment of
`generateKeyFromName` both say all non-alphanumeric/non-hyphen
characters are stripped, so digits survive; the implemented regex
`[^a-zA-Z\s-]` also strips digits.  At the name "Agent 1" the
implementation yields "agent-" while the documented derivation yields
"agent-1". -/
theorem c1_generateKey_digits_divergence :
    generateKeyFromName (jsStr "Agent 1") = jsStr "agent-" ∧
    specKeyFromName (jsStr "Agent 1") = jsStr "agent-1" ∧
    generateKeyFromName (jsStr "Agent 1") ≠ specKeyFromName (jsStr "Agent 1") :=
  ⟨by decide, by decide, by decide⟩

/-- Claim C2: identifier derivation is deterministic (equal names give
equal identifiers) and idempotent (deriving from a derived identifier
returns it unchanged). -/
theorem c2_generateKey_deterministic_idempotent :
    (∀ na nb : List Nat, na = nb →
      generateKeyFromName na = generateKeyFromName nb) ∧
    (∀ name : List Nat,
      generateKeyFromName (generateKeyFromName name) = generateKeyFromName name) :=
  ⟨fun _ _ h => congrArg generateKeyFromName h, generateKeyFromName_idem⟩

/-- Claim C2 witness at the concrete name "Tech Agent". -/
theorem c2_generateKey_witness :
    generateKeyFromName (jsStr "Tech Agent") = generateKeyFromName (jsStr "Tech Agent") ∧
    generateKeyFromName (generateKeyFromName (jsStr "Tech Agent"))
      = generateKeyFromName (jsStr "Tech Agent") :=
  ⟨c2_generateKey_deterministic_idempotent.1 (jsStr "Tech Agent") (jsStr "Tech Agent") rfl,
   c2_generateKey_deterministic_idempotent.2 (jsStr "Tech Agent")⟩

/-- Claim C3: an Agent built without a `saveChat` option has
`saveChat = true`; an explicit `saveChat` value is taken as given. -/
theorem c3_saveChat_default (options : AgentOptions) :
    (options.saveChat = none → (makeAgent options).saveChat = true) ∧
    (∀ b, options.saveChat = some b → (makeAgent options).saveChat = b) := by
  constructor
  · intro h
    simp [makeAgent, h]
  · intro b h
    simp [makeAgent, h]

/-- Claim C3 witness at concrete option records. -/
theorem c3_saveChat_witness :
    baseOptions.saveChat = none ∧
    (makeAgent baseOptions).saveChat = true ∧
    optOutOptions.saveChat = some false ∧
    (makeAgent optOutOptions).saveChat = false :=
  ⟨rfl,
   (c3_saveChat_default baseOptions).1 rfl,
   rfl,
   (c3_saveChat_default optOutOptions).2 false rfl⟩

/-- Claim C4 counterexample: an Agent built with no injected logger but
with `LOG_AGENT_DEBUG_TRACE = true` gets the `console` logger, whose
operations do log — so "no injected logger implies no-op logger
regardless of the other options" is false. -/
theorem c4_logger_counterexample :
    traceOptions.logger = none ∧
    ¬ IsNoOpLogger (makeAgent traceOptions).logger := by
  refine ⟨rfl, fun h => ?_⟩
  have hemit := h LogLevel.info []
  simp [makeAgent, traceOptions, baseOptions, Logger.emit] at hemit

/-- Claim C4 (amended): an Agent built with no injected logger gets the
no-op logger provided the debug-trace option does not resolve to true;
with debug trace enabled it gets the console logger instead. -/
theorem c4_logger_noop_default (options : AgentOptions)
    (hlog : options.logger = none)
    (htrace : options.LOG_AGENT_DEBUG_TRACE.getD false = false) :
    IsNoOpLogger (makeAgent options).logger := by
  intro lv m
  simp [makeAgent, hlog, htrace, Logger.emit]

/-- Claim C4 witness: the defaults (no logger, no debug-trace option)
give a no-op logger. -/
theorem c4_logger_witness :
    IsNoOpLogger (makeAgent baseOptions).logger :=
  c4_logger_noop_default baseOptions rfl rfl

/-- Claim C5: the analyzePrompt tool schema names exactly the three
fields userinput (string), selected_agent (string) and confidence
(number), marks all three required, and every object conforming to the
schema carries all three fields with those types. -/
theorem c5_schema_all_required :
    analyzePromptTool.input_schema.required =
      [jsStr "userinput", jsStr "selected_agent", jsStr "confidence"] ∧
    analyzePromptTool.input_schema.properties =
      [ (jsStr "userinput", .stringT)
      , (jsStr "selected_agent", .stringT)
      , (jsStr "confidence", .numberT) ] ∧
    ∀ o : List (List Nat × JSValue),
      conformsTo o analyzePromptTool.input_schema = true →
      (∃ s, lookupField o (jsStr "userinput") = some (JSValue.str s)) ∧
      (∃ s, lookupField o (jsStr "selected_agent") = some (JSValue.str s)) ∧
      (∃ q, lookupField o (jsStr "confidence") = some (JSValue.num q)) := by
  refine ⟨rfl, rfl, ?_⟩
  intro o h
  simp only [conformsTo, analyzePromptTool, List.all_cons, List.all_nil,
    Bool.and_true, Bool.and_eq_true] at h
  obtain ⟨⟨h1, h2, h3⟩, p1, p2, p3⟩ := h
  obtain ⟨v1, hv1⟩ := Option.isSome_iff_exists.mp h1
  obtain ⟨v2, hv2⟩ := Option.isSome_iff_exists.mp h2
  obtain ⟨v3, hv3⟩ := Option.isSome_iff_exists.mp h3
  rw [hv1] at p1
  rw [hv2] at p2
  rw [hv3] at p3
  obtain ⟨s1, rfl⟩ := hasType_stringT p1
  obtain ⟨s2, rfl⟩ := hasType_stringT p2
  obtain ⟨q3, rfl⟩ := hasType_numberT p3
  exact ⟨⟨s1, hv1⟩, ⟨s2, hv2⟩, ⟨q3, hv3⟩⟩

/-- Claim C5 witness: the docs example response conforms and carries
the three fields. -/
theorem c5_schema_witness :
    (∃ s, lookupField sampleClassification (jsStr "userinput")
      = some (JSValue.str s)) ∧
    (∃ s, lookupField sampleClassification (jsStr "selected_agent")
      = some (JSValue.str s)) ∧
    (∃ q, lookupField sampleClassification (jsStr "confidence")
      = some (JSValue.num q)) :=
  c5_schema_all_required.2.2 sampleClassification (by decide)

/-- Claim C6: under any model client that follows the continuity
instruction embedded in the default system prompt, classifying an
acknowledgement turn against a history whose last assistant message is
attributed to agent X selects X. -/
theorem c6_classify_continuity (client : ModelClient)
    (hclient : FollowsContinuityInstruction client)
    (agentDescriptions : List Nat) (history : List ConversationMessage)
    (input : List Nat) (X : List Nat)
    (hlast : lastAttributedAgent history = some X)
    (hack : isAcknowledgement input = true) :
    (classify client agentDescriptions history input).selected_agent = X :=
  hclient (defaultSystemPrompt agentDescriptions (renderHistory history))
    history input
    ⟨promptHeader, promptTail agentDescriptions (renderHistory history), rfl⟩
    hack X hlast

/-- Claim C6 witness: the scripted continuity-following stub client,
a concrete history ending in a tech-support-agent message, and the
acknowledgement "yes". -/
theorem c6_classify_witness :
    (classify stubClient
      (jsStr "tech-support-agent:Resolves technical issues")
      sampleHistory (jsStr "yes")).selected_agent
      = jsStr "tech-support-agent" :=
  c6_classify_continuity stubClient stubClient_follows
    (jsStr "tech-support-agent:Resolves technical issues")
    sampleHistory (jsStr "yes") (jsStr "tech-support-agent")
    (by decide) (by decide)

/-- Claim C7: in every normalized response the `streaming` flag equals
whether `output` is the stream form, and when it is false the output is
a plain string — so checking `streaming` is a safe discriminator. -/
theorem c7_streaming_disambiguates (meta : AgentProcessingResult)
    (reply : AgentReply) :
    (normalizeReply meta reply).streaming
      = (normalizeReply meta reply).output.isStream ∧
    ((normalizeReply meta reply).output.isStream = false ↔
      ∃ s, (normalizeReply meta reply).output = AgentOutput.text s) := by
  cases reply <;> simp [normalizeReply, AgentOutput.isStream]

/-- Claim C8 counterexample: the declared type of processRequest's
`additionalParams` parameter is `Record<string, string>`, so a number
value is rejected there — while the same value is accepted by
`AgentProcessingResult.additionalParams` (`Record<string, any>`).
Hence "arbitrary value types in both places" is false. -/
theorem c8_params_counterexample :
    recordEntryHasType (JSValue.num 1) additionalParamsTypeOnProcessRequest
      = false ∧
    recordEntryHasType (JSValue.num 1) additionalParamsTypeOnResult = true :=
  ⟨rfl, rfl⟩

/-- Claim C8 (amended):
`AgentProcessingResult.additionalParams` accepts values of arbitrary
type, but the optional `additionalParams` argument of `processRequest`
accepts exactly string values. -/
theorem c8_additionalParams_value_types :
    (∀ v : JSValue,
      recordEntryHasType v additionalParamsTypeOnResult = true) ∧
    (∀ v : JSValue,
      recordEntryHasType v additionalParamsTypeOnProcessRequest = true ↔
        ∃ s, v = JSValue.str s) := by
  constructor
  · intro v
    cases v <;> rfl
  · intro v
    cases v <;>
      simp [recordEntryHasType, additionalParamsTypeOnProcessRequest,
        JSValue.hasType]

/-- Claim C9: identifier derivation is not injective — the distinct
digit-only names "1" and "2" both derive the empty identifier, so two
differently named agents share an id and an Agent id can be empty. -/
theorem c9_key_not_injective :
    jsStr "1" ≠ jsStr "2" ∧
    generateKeyFromName (jsStr "1") = generateKeyFromName (jsStr "2") ∧
    (makeAgent { name := jsStr "1", description := jsStr "d" }).id
      = (makeAgent { name := jsStr "2", description := jsStr "d" }).id ∧
    (makeAgent { name := jsStr "1", description := jsStr "d" }).id = [] :=
  ⟨by decide, by decide, by decide, by decide⟩

/-- Claim C10: every code point of a derived identifier — and hence of
every constructed Agent id — is a lowercase ASCII letter or the hyphen
(code 45): never uppercase, a digit, whitespace or anything else. -/
theorem c10_key_chars (name : List Nat) (n : Nat) :
    (n ∈ generateKeyFromName name → (isAsciiLower n = true ∨ n = 45)) ∧
    (∀ options : AgentOptions, n ∈ (makeAgent options).id →
      (isAsciiLower n = true ∨ n = 45)) := by
  constructor
  · exact mem_generateKeyFromName name n
  · intro options h
    exact mem_generateKeyFromName options.name n h

/-- Claim C10 witness: the code points of letter t and letter h in the
key of "Tech Agent 2". -/
theorem c10_key_chars_witness :
    (isAsciiLower 116 = true ∨ 116 = 45) ∧
    (isAsciiLower 104 = true ∨ 104 = 45) :=
  ⟨(c10_key_chars (jsStr "Tech Agent 2") 116).1 (by decide),
   (c10_key_chars (jsStr "Tech Agent 2") 104).2
     { name := jsStr "Tech Agent 2", description := jsStr "d" } (by decide)⟩

end MAO
